import Mathlib

/-!
Verification development for the AACE Compass chat front-end (`app.py`).

The program is a single-page Streamlit client: it probes a backend health
endpoint, forwards user questions to a query endpoint, and maintains an
in-memory transcript of user/assistant turns.  We embed the transcript
data model, the query dispatcher `query_rag_system`, the health probe, the
per-render-cycle session logic and the transcript renderer as pure Lean
functions, with the backend's behaviour (HTTP result or raised exception)
passed in explicitly.
-/

namespace AACECompass

/-- A retrieved source excerpt: `{"text": ..., "score": ...}`.
Scores are modelled as rationals. -/
structure Source where
  text : String
  score : ℚ
deriving Repr, DecidableEq

/-- A parsed query-endpoint response body:
`{"answer": <string>, "sources": [...] }` where the `sources` key is
optional (`none` models an absent key). -/
structure RagResponse where
  answer : String
  sources : Option (List Source)
deriving Repr, DecidableEq

/-- A transcript entry as stored in `st.session_state.messages`: a dict with
`role`, `content`, and an optional `sources` key (`none` models a dict
without the key, as in user turns). -/
structure Message where
  role : String
  content : String
  sources : Option (List Source)
deriving Repr, DecidableEq

/-- Result of attempting to parse a response body as JSON:
`error e` models `response.json()` raising with message `e`. -/
inductive ParseResult where
  | ok (r : RagResponse)
  | error (e : String)
deriving Repr, DecidableEq

/-- Outcome of the HTTP POST performed by `query_rag_system`:
either a response arrived (with status code, raw body text, and the result
of attempting to parse the body as JSON), or the call raised
(transport failure, connection refused, ...). -/
inductive HttpResult where
  | response (status : Nat) (body : String) (parsed : ParseResult)
  | exception (msg : String)
deriving Repr, DecidableEq

/-- Outcome of the health-endpoint GET: a status code, or a raised
exception (timeout or transport failure). -/
inductive HealthResult where
  | response (status : Nat)
  | exception (msg : String)
deriving Repr, DecidableEq

/-- Connectivity status displayed by the server-status banner. -/
inductive ServerStatus where
  | connected (port : String)
  | serverError (code : Nat)
  | connectionFailed (msg : String)
deriving Repr, DecidableEq

/-- The fixed apology returned on a non-200 query status (app.py line 34). -/
def apologyError : String := "Sorry, I encountered an error processing your request."

/-- The fixed apology returned when the query call raises (app.py line 38). -/
def apologyConnect : String := "Sorry, I couldn\x27t connect to the backend service."

/-- Result of one call to `query_rag_system`: the returned structure plus
the list of error banners surfaced via `st.error`. -/
structure DispatchOutcome where
  result : RagResponse
  errors : List String
deriving Repr, DecidableEq

/-- `query_rag_system` (app.py lines 22-38): on HTTP 200 return the parsed
body; on any other status surface `Error: {status} - {body}` and return the
fixed apology with no `sources` key; if the call (or `response.json()`)
raises, surface `Exception: {msg}` and return the alternate apology with no
`sources` key.  Total: no exception escapes. -/
def query_rag_system (r : HttpResult) : DispatchOutcome :=
  match r with
  | .response status body parsed =>
      if status = 200 then
        match parsed with
        | .ok j => ⟨j, []⟩
        | .error e => ⟨⟨apologyConnect, none⟩, ["Exception: " ++ e]⟩
      else
        ⟨⟨apologyError, none⟩, ["Error: " ++ toString status ++ " - " ++ body]⟩
  | .exception msg => ⟨⟨apologyConnect, none⟩, ["Exception: " ++ msg]⟩

/-- The health-probe status mapping (app.py lines 47-54): 200 yields the
connected banner (naming the port), any other status yields the
server-error banner with the code, an exception yields the
could-not-connect banner with the detail. -/
def probeStatus (port : String) (h : HealthResult) : ServerStatus :=
  match h with
  | .response status =>
      if status = 200 then .connected port else .serverError status
  | .exception msg => .connectionFailed msg

/-- The `st.info` remediation hint (app.py line 55), shown only on the
exception path of the probe. -/
def probeHint (port : String) (h : HealthResult) : Option String :=
  match h with
  | .response _ => none
  | .exception _ =>
      some ("Make sure the server is running on port " ++ port ++
        ". You can start it with \x27npm start\x27")

/-- The health probe timeout in seconds (app.py line 48, `timeout=2`). -/
def healthTimeoutSeconds : Nat := 2

/-- `os.getenv('PORT', '5050')` (app.py line 11). -/
def getPort (env : String → Option String) : String :=
  (env "PORT").getD "5050"

/-- `API_URL` (app.py line 12). -/
def apiUrl (port : String) : String :=
  "http://localhost:" ++ port ++ "/api/query"

/-- The single-field request payload `json.dumps({"query": user_query})`. -/
structure QueryPayload where
  query : String
deriving Repr, DecidableEq

/-- An HTTP request issued by the client. -/
structure Request where
  method : String
  url : String
  contentType : String
  payload : QueryPayload
deriving Repr, DecidableEq

/-- The one POST issued per submission (app.py lines 24-28). -/
def queryRequest (port q : String) : Request :=
  ⟨"POST", apiUrl port, "application/json", ⟨q⟩⟩

/-- The user turn appended on submission (app.py line 78): a dict with only
`role` and `content` — no `sources` key. -/
def mkUserTurn (q : String) : Message := ⟨"user", q, none⟩

/-- The assistant turn appended after dispatch (app.py lines 102-106):
`sources` is always stored, via `response.get("sources", [])`. -/
def mkAssistantTurn (resp : RagResponse) : Message :=
  ⟨"assistant", resp.answer, some (resp.sources.getD [])⟩

/-- Zero-pad a natural number to 4 digits. -/
def pad4 (n : Nat) : String :=
  let s := toString n
  String.mk (List.replicate (4 - s.length) '0') ++ s

/-- The Python format specifier `:.4f` applied to a score `num/den`: round
`10000 * num / den` to the nearest integer
(`⌊10000 num / den + 1/2⌋ = (2 * 10000 * num + den).fdiv (2 den)`) and
print with exactly 4 digits after the decimal point.  (Ties, which cannot
arise from binary floating-point scores, round half up here rather than to
even.)  Computed on `num` and `den` directly so the kernel can evaluate
it. -/
def format4 (q : ℚ) : String :=
  let n : ℤ := (2 * q.num * 10000 + q.den).fdiv (2 * q.den)
  let sign := if n < 0 then "-" else ""
  sign ++ toString (n.natAbs / 10000) ++ "." ++ pad4 (n.natAbs % 10000)

/-- The markdown lines emitted for the sources of one assistant turn inside
the `View Sources` expander, mirroring `for i, source in enumerate(...)`
(app.py lines 67-70): a 1-based indexed header with the score formatted to
4 decimal places, the excerpt text, then a `---` separator. -/
def renderEntriesFrom : Nat → List Source → List String
  | _, [] => []
  | i, s :: rest =>
      ("**Source " ++ toString (i + 1) ++ "** (Score: " ++ format4 s.score ++ ")")
        :: s.text :: "---" :: renderEntriesFrom (i + 1) rest

/-- The full expander body for a source list (enumeration starts at 0). -/
def renderSourceEntries (l : List Source) : List String :=
  renderEntriesFrom 0 l

/-- What the history render loop displays for one transcript entry. -/
structure RenderedTurn where
  role : String
  content : String
  sourcesSection : Option (List String)
deriving Repr, DecidableEq

/-- The transcript history render loop, per message (app.py lines 62-70):
show the content; the `View Sources` expander is rendered exactly when the
role is `assistant` and the dict has a `sources` key — regardless of
whether the source list is empty. -/
def renderMessage (m : Message) : RenderedTurn :=
  ⟨m.role, m.content,
    if m.role = "assistant" then m.sources.map renderSourceEntries else none⟩

/-- Rendering the whole transcript history. -/
def renderTranscript (msgs : List Message) : List RenderedTurn :=
  msgs.map renderMessage

/-- Everything one render cycle produces that the claims observe. -/
structure CycleResult where
  transcript : List Message
  requests : List Request
  status : ServerStatus
  hint : Option String
deriving Repr, DecidableEq

/-- One Streamlit render cycle (app.py lines 46-111): probe the health
endpoint; if the chat input yielded a non-empty string, append the user
turn, dispatch the query (one POST), and append the assistant turn; if the
clear button was clicked, reset the transcript to `[]`.  `input = none`
models `st.chat_input` returning `None`; the guard `if user_query:` is
falsy for `None` and for the empty string. -/
def renderCycle (port : String) (msgs : List Message) (health : HealthResult)
    (input : Option String) (backend : HttpResult) (clearClicked : Bool) :
    CycleResult :=
  let status := probeStatus port health
  let hint := probeHint port health
  let submitted :=
    match input with
    | some q =>
        if q = "" then (msgs, ([] : List Request))
        else
          (msgs ++ [mkUserTurn q, mkAssistantTurn (query_rag_system backend).result],
            [queryRequest port q])
    | none => (msgs, [])
  let transcript := if clearClicked then [] else submitted.1
  ⟨transcript, submitted.2, status, hint⟩

/-- One user interaction cycle, as fed to a session run. -/
inductive Op where
  | cycle (health : HealthResult) (input : Option String) (backend : HttpResult)
      (clearClicked : Bool)
deriving Repr, DecidableEq

/-- Apply one cycle to the stored transcript. -/
def stepOp (port : String) (msgs : List Message) (op : Op) : List Message :=
  match op with
  | .cycle h i b c => (renderCycle port msgs h i b c).transcript

/-- Run a session: transcript starts empty (app.py lines 58-59) and each
render cycle updates it. -/
def runOps (port : String) (ops : List Op) : List Message :=
  ops.foldl (stepOp port) []

/-- A cycle that is a proper submission: the chat input fired with a
non-empty string and the clear button was not clicked. -/
def IsSubmission : Op → Prop
  | .cycle _ (some q) _ c => c = false ∧ q ≠ ""
  | .cycle _ none _ _ => False

/-- Shape of a stored transcript entry: a user turn has exactly `role` and
`content` (no `sources` key), an assistant turn always carries a `sources`
list (possibly empty). -/
def WellFormedMsg (m : Message) : Prop :=
  (m.role = "user" ∧ m.sources = none) ∨
    (m.role = "assistant" ∧ ∃ l, m.sources = some l)

/-- One session consisting of a single submission whose query receives
HTTP 500: the stored assistant turn has an empty `sources` list. -/
def failedQueryOps : List Op :=
  [.cycle (.response 200) (some "q") (.response 500 "boom" (.error "x")) false]

/-- The parsed success body of the spec scenario:
`\x7b"answer": "X", "sources": [\x7b"text": "A", "score": 0.9123\x7d]\x7d`. -/
def c5Response : RagResponse :=
  ⟨"X", some [⟨"A", mkRat 9123 10000⟩]⟩

/-- The HTTP outcome of the spec scenario: status 200, body parsed to
`c5Response`. -/
def c5Http : HttpResult :=
  .response 200 "c5-raw-body" (.ok c5Response)

/-- One session consisting of a single successful submission carrying one
source, used to exercise the renderer on a reachable transcript. -/
def successQueryOps : List Op :=
  [.cycle (.response 200) (some "q")
    (.response 200 "raw-body" (.ok ⟨"X", some [⟨"A", mkRat 9123 10000⟩]⟩)) false]

/-! ### Helper lemmas -/

theorem stepOp_submit (port : String) (msgs : List Message) (hl : HealthResult)
    (q : String) (b : HttpResult) (hq : q ≠ "") :
    stepOp port msgs (.cycle hl (some q) b false) =
      msgs ++ [mkUserTurn q, mkAssistantTurn (query_rag_system b).result] := by
  simp [stepOp, renderCycle, hq]

theorem foldl_submission_roles (port : String) (ops : List Op) :
    ∀ msgs : List Message, (∀ op ∈ ops, IsSubmission op) →
      (ops.foldl (stepOp port) msgs).map Message.role =
        msgs.map Message.role ++
          (List.replicate ops.length (["user", "assistant"] : List String)).flatten := by
  induction ops with
  | nil => intro msgs _; simp
  | cons op rest ih =>
      intro msgs h
      obtain ⟨hl, i, b, c⟩ := op
      cases i with
      | none => exact absurd (h _ (List.mem_cons_self _ _)) (by simp [IsSubmission])
      | some q =>
          have hs : c = false ∧ q ≠ "" := h _ (List.mem_cons_self _ _)
          obtain ⟨rfl, hq⟩ := hs
          rw [List.foldl_cons, ih _ (fun o ho => h o (List.mem_cons_of_mem _ ho)),
            stepOp_submit port msgs hl q b hq]
          simp [List.replicate_succ, mkUserTurn, mkAssistantTurn]

theorem join_replicate_pair_length (n : Nat) :
    ((List.replicate n (["user", "assistant"] : List String)).flatten).length = 2 * n := by
  induction n with
  | zero => simp
  | succ k ih => simp [List.replicate_succ, ih]; omega

theorem wellFormed_foldl (port : String) (ops : List Op) :
    ∀ msgs : List Message, (∀ m ∈ msgs, WellFormedMsg m) →
      ∀ m ∈ ops.foldl (stepOp port) msgs, WellFormedMsg m := by
  induction ops with
  | nil => intro msgs h; simpa using h
  | cons op rest ih =>
      intro msgs h
      rw [List.foldl_cons]
      apply ih
      intro m hm
      obtain ⟨hl, i, b, c⟩ := op
      cases c with
      | true => simp [stepOp, renderCycle] at hm
      | false =>
          cases i with
          | none => exact h m (by simpa [stepOp, renderCycle] using hm)
          | some q =>
              by_cases hq : q = ""
              · exact h m (by simpa [stepOp, renderCycle, hq] using hm)
              · rw [stepOp_submit port msgs hl q b hq] at hm
                rcases List.mem_append.mp hm with hmem | hmem
                · exact h m hmem
                · simp only [List.mem_cons, List.not_mem_nil, or_false] at hmem
                  rcases hmem with rfl | rfl
                  · exact Or.inl ⟨rfl, rfl⟩
                  · exact Or.inr ⟨rfl, _, rfl⟩

theorem renderEntriesFrom_get? (l : List Source) :
    ∀ (k j : Nat) (s : Source), l.get? j = some s →
      (renderEntriesFrom k l).get? (3 * j) =
        some ("**Source " ++ toString (k + j + 1) ++ "** (Score: " ++
          format4 s.score ++ ")") ∧
      (renderEntriesFrom k l).get? (3 * j + 1) = some s.text ∧
      (renderEntriesFrom k l).get? (3 * j + 2) = some "---" := by
  induction l with
  | nil => intro k j s h; simp at h
  | cons a rest ih =>
      intro k j s h
      cases j with
      | zero =>
          rw [List.get?_cons_zero] at h
          obtain rfl : a = s := by injection h
          simp [renderEntriesFrom]
      | succ j' =>
          rw [List.get?_cons_succ] at h
          obtain ⟨h1, h2, h3⟩ := ih (k + 1) j' s h
          refine ⟨?_, ?_, ?_⟩
          · rw [show 3 * (j' + 1) = 3 * j' + 1 + 1 + 1 from by ring]
            simpa [renderEntriesFrom, List.get?_cons_succ,
              show k + 1 + j' + 1 = k + (j' + 1) + 1 from by omega] using h1
          · rw [show 3 * (j' + 1) + 1 = 3 * j' + 1 + 1 + 1 + 1 from by ring]
            simpa [renderEntriesFrom, List.get?_cons_succ] using h2
          · rw [show 3 * (j' + 1) + 2 = 3 * j' + 2 + 1 + 1 + 1 from by ring]
            simpa [renderEntriesFrom, List.get?_cons_succ] using h3

/-! ### Claim theorems -/

/-- C1 (counterexample): it is not the case that the `View Sources` section
is rendered only for assistant turns with a non-empty source sequence.  In
the transcript reached by one submission whose query got HTTP 500, the
stored assistant turn has an empty `sources` list, yet the history render
loop still shows the (empty) `View Sources` expander, because its guard
tests for the presence of the `sources` key, which the app always
stores. -/
theorem C1_counterexample :
    (¬ ∀ m ∈ runOps "5050" failedQueryOps,
        ((renderMessage m).sourcesSection ≠ none ↔ m.sources.getD [] ≠ [])) ∧
    (runOps "5050" failedQueryOps).get? 1 =
      some ⟨"assistant", apologyError, some []⟩ ∧
    (renderMessage ⟨"assistant", apologyError, some []⟩).sourcesSection =
      some [] := by
  decide

/-- C1 (amended): for every assistant turn rendered from a reachable
transcript, the collapsible `View Sources` section is rendered — the app
always stores a `sources` list on assistant turns, so the section appears
even when that list is empty — and it lists the sources in order, entry
`j` (0-based) showing the 1-based index `j+1`, the score formatted to
exactly 4 decimal places, and the excerpt text, followed by a `---`
separator. -/
theorem C1_amended_view_sources (port : String) (ops : List Op) (m : Message)
    (hm : m ∈ runOps port ops) (ha : m.role = "assistant") :
    (∃ l, m.sources = some l ∧
      (renderMessage m).sourcesSection = some (renderSourceEntries l)) ∧
    (∀ (l : List Source) (j : Nat) (s : Source), l.get? j = some s →
      (renderSourceEntries l).get? (3 * j) =
        some ("**Source " ++ toString (j + 1) ++ "** (Score: " ++
          format4 s.score ++ ")") ∧
      (renderSourceEntries l).get? (3 * j + 1) = some s.text ∧
      (renderSourceEntries l).get? (3 * j + 2) = some "---") := by
  constructor
  · have hwf := wellFormed_foldl port ops [] (by simp) m hm
    rcases hwf with ⟨hrole, _⟩ | ⟨_, l, hl⟩
    · rw [ha] at hrole; exact absurd hrole (by decide)
    · exact ⟨l, hl, by simp [renderMessage, ha, hl]⟩
  · intro l j s h
    simpa using renderEntriesFrom_get? l 0 j s h

/-- Witness for `C1_amended_view_sources`: the assistant turn of a
successful one-source submission. -/
theorem C1_amended_view_sources_witness :
    (⟨"assistant", "X", some [⟨"A", mkRat 9123 10000⟩]⟩ : Message) ∈
        runOps "5050" successQueryOps ∧
    ((∃ l, (⟨"assistant", "X", some [⟨"A", mkRat 9123 10000⟩]⟩ : Message).sources
          = some l ∧
        (renderMessage ⟨"assistant", "X", some [⟨"A", mkRat 9123 10000⟩]⟩).sourcesSection
          = some (renderSourceEntries l)) ∧
      (∀ (l : List Source) (j : Nat) (s : Source), l.get? j = some s →
        (renderSourceEntries l).get? (3 * j) =
          some ("**Source " ++ toString (j + 1) ++ "** (Score: " ++
            format4 s.score ++ ")") ∧
        (renderSourceEntries l).get? (3 * j + 1) = some s.text ∧
        (renderSourceEntries l).get? (3 * j + 2) = some "---")) :=
  ⟨by decide,
    C1_amended_view_sources "5050" successQueryOps
      ⟨"assistant", "X", some [⟨"A", mkRat 9123 10000⟩]⟩ (by decide) rfl⟩

/-- C2: after any sequence of N proper submissions (non-empty input, no
clear), whatever each query's backend outcome, the transcript has length
exactly 2N and its roles strictly alternate user, assistant, ... starting
with a user turn; moreover each submission appends exactly one user turn
followed by exactly one assistant turn. -/
theorem C2_transcript_shape (port : String) (ops : List Op)
    (h : ∀ op ∈ ops, IsSubmission op) :
    (runOps port ops).length = 2 * ops.length ∧
    (runOps port ops).map Message.role =
      (List.replicate ops.length (["user", "assistant"] : List String)).flatten ∧
    (∀ (msgs : List Message) (hl : HealthResult) (q : String) (b : HttpResult),
      q ≠ "" →
        stepOp port msgs (.cycle hl (some q) b false) =
          msgs ++ [mkUserTurn q, mkAssistantTurn (query_rag_system b).result]) := by
  have hr := foldl_submission_roles port ops [] h
  simp only [List.map_nil, List.nil_append] at hr
  refine ⟨?_, ?_, fun msgs hl q b hq => stepOp_submit port msgs hl q b hq⟩
  · have hlen := congrArg List.length hr
    simp [join_replicate_pair_length] at hlen
    simp only [runOps]
    omega
  · simpa [runOps] using hr

/-- Witness for `C2_transcript_shape`: two submissions, one succeeding and
one raising. -/
theorem C2_transcript_shape_witness :
    (∀ op ∈ [Op.cycle (.response 200) (some "q1")
        (.response 200 "raw" (.ok ⟨"A1", none⟩)) false,
      Op.cycle (.exception "down") (some "q2") (.exception "refused") false],
        IsSubmission op) ∧
    (runOps "5050" [Op.cycle (.response 200) (some "q1")
        (.response 200 "raw" (.ok ⟨"A1", none⟩)) false,
      Op.cycle (.exception "down") (some "q2") (.exception "refused") false]).length
        = 2 * 2 := by
  have hsub : ∀ op ∈ [Op.cycle (.response 200) (some "q1")
      (.response 200 "raw" (.ok ⟨"A1", none⟩)) false,
    Op.cycle (.exception "down") (some "q2") (.exception "refused") false],
      IsSubmission op := by
    intro op hop
    simp only [List.mem_cons, List.not_mem_nil, or_false] at hop
    rcases hop with rfl | rfl
    · exact ⟨rfl, by decide⟩
    · exact ⟨rfl, by decide⟩
  exact ⟨hsub, (C2_transcript_shape "5050" _ hsub).1⟩

/-- C3: on any non-200 query status, the dispatcher surfaces the status
and raw body as an error and returns the fixed apology with no `sources`
key, and the assistant turn then appended has that content and an empty
source list. -/
theorem C3_non200_fallback (status : Nat) (body : String) (parsed : ParseResult)
    (h : status ≠ 200) :
    query_rag_system (.response status body parsed) =
      ⟨⟨apologyError, none⟩, ["Error: " ++ toString status ++ " - " ++ body]⟩ ∧
    mkAssistantTurn (query_rag_system (.response status body parsed)).result =
      ⟨"assistant", apologyError, some []⟩ := by
  simp [query_rag_system, h, mkAssistantTurn]

/-- Witness for `C3_non200_fallback`: the spec's HTTP 500 scenario. -/
theorem C3_non200_fallback_witness :
    (500 : Nat) ≠ 200 ∧
    mkAssistantTurn (query_rag_system (.response 500 "boom" (.error "x"))).result =
      ⟨"assistant", apologyError, some []⟩ :=
  ⟨by decide, (C3_non200_fallback 500 "boom" (.error "x") (by decide)).2⟩

/-- C4: whenever the query call raises — transport failure, connection
refused, or a 200 response whose body fails to parse as JSON — the
dispatcher catches it, surfaces the detail, and returns the alternate
apology with no `sources` key; the appended assistant turn has that
content with an empty source list.  The dispatcher is a total function of
the HTTP outcome, so no exception ever propagates to the caller. -/
theorem C4_exception_fallback (msg body e : String) :
    query_rag_system (.exception msg) =
      ⟨⟨apologyConnect, none⟩, ["Exception: " ++ msg]⟩ ∧
    query_rag_system (.response 200 body (.error e)) =
      ⟨⟨apologyConnect, none⟩, ["Exception: " ++ e]⟩ ∧
    mkAssistantTurn (query_rag_system (.exception msg)).result =
      ⟨"assistant", apologyConnect, some []⟩ ∧
    mkAssistantTurn (query_rag_system (.response 200 body (.error e))).result =
      ⟨"assistant", apologyConnect, some []⟩ := by
  refine ⟨rfl, ?_, rfl, ?_⟩ <;> simp [query_rag_system, mkAssistantTurn]

/-- C5: for the spec scenario — HTTP 200 with body
`\x7b"answer": "X", "sources": [\x7b"text": "A", "score": 0.9123\x7d]\x7d` —
the dispatcher returns the parsed structure unchanged with no error
banner, the appended assistant turn has content `X` and exactly the one
source with text `A`, and the rendered entry displays the score as
`0.9123`. -/
theorem C5_success_passthrough :
    query_rag_system c5Http = ⟨c5Response, []⟩ ∧
    mkAssistantTurn (query_rag_system c5Http).result =
      ⟨"assistant", "X", some [⟨"A", mkRat 9123 10000⟩]⟩ ∧
    format4 (mkRat 9123 10000) = "0.9123" ∧
    renderMessage (mkAssistantTurn (query_rag_system c5Http).result) =
      ⟨"assistant", "X",
        some ["**Source 1** (Score: 0.9123)", "A", "---"]⟩ := by
  decide

/-- C6: clicking Clear resets the transcript to the empty list in one
step, unconditionally — whatever the prior transcript, probe outcome,
chat input and backend behaviour — and re-rendering then shows an empty
transcript. -/
theorem C6_clear_unconditional (port : String) (msgs : List Message)
    (health : HealthResult) (input : Option String) (backend : HttpResult) :
    (renderCycle port msgs health input backend true).transcript = [] ∧
    renderTranscript (renderCycle port msgs health input backend true).transcript
      = [] := by
  cases input <;> simp [renderCycle, renderTranscript]

/-- C7: the connectivity probe maps each backend outcome to exactly one
status — HTTP 200 to Connected, any non-200 code to ServerError carrying
that code, a timeout or transport exception to ConnectionFailed carrying
the detail together with the hint naming the backend startup command
(`npm start`) — its timeout is 2 seconds, and the probe outcome never
affects the transcript. -/
theorem C7_probe_mapping (port msg : String) (code : Nat) (hc : code ≠ 200)
    (msgs : List Message) (h1 h2 : HealthResult) (input : Option String)
    (backend : HttpResult) (c : Bool) :
    probeStatus port (.response 200) = .connected port ∧
    probeStatus port (.response code) = .serverError code ∧
    probeStatus port (.exception msg) = .connectionFailed msg ∧
    probeHint port (.exception msg) =
      some ("Make sure the server is running on port " ++ port ++
        ". You can start it with \x27npm start\x27") ∧
    healthTimeoutSeconds = 2 ∧
    (renderCycle port msgs h1 input backend c).transcript =
      (renderCycle port msgs h2 input backend c).transcript ∧
    (renderCycle port msgs h1 input backend c).requests =
      (renderCycle port msgs h2 input backend c).requests := by
  refine ⟨rfl, ?_, rfl, rfl, rfl, rfl, rfl⟩
  simp [probeStatus, hc]

/-- Witness for `C7_probe_mapping`: the spec's HTTP 503 example. -/
theorem C7_probe_mapping_witness :
    (503 : Nat) ≠ 200 ∧
    probeStatus "5050" (.response 503) = .serverError 503 :=
  ⟨by decide,
    (C7_probe_mapping "5050" "timeout" 503 (by decide) [] (.response 503)
      (.response 503) none (.exception "x") false).2.1⟩

/-- C8: each submission issues exactly one HTTP POST (the request list is
a singleton) to `http://localhost:{port}/api/query`, where the port comes
from the `PORT` environment variable defaulting to `5050`, with content
type declared as JSON and the single-field payload carrying the question
string. -/
theorem C8_request_shape (env : String → Option String) (q : String)
    (msgs : List Message) (health : HealthResult) (backend : HttpResult)
    (c : Bool) (hq : q ≠ "") :
    (renderCycle (getPort env) msgs health (some q) backend c).requests =
      [⟨"POST", "http://localhost:" ++ getPort env ++ "/api/query",
        "application/json", ⟨q⟩⟩] ∧
    (env "PORT" = none → getPort env = "5050") := by
  constructor
  · simp [renderCycle, hq, queryRequest, apiUrl]
  · intro h; simp [getPort, h]

/-- Witness for `C8_request_shape`: a submission with `PORT` unset. -/
theorem C8_request_shape_witness :
    ("hello" : String) ≠ "" ∧
    (renderCycle (getPort fun _ => none) [] (.response 200) (some "hello")
        (.exception "refused") false).requests =
      [⟨"POST", "http://localhost:" ++ getPort (fun _ => none) ++ "/api/query",
        "application/json", ⟨"hello"⟩⟩] ∧
    getPort (fun _ => none) = "5050" := by
  have h := C8_request_shape (fun _ => none) "hello" [] (.response 200)
    (.exception "refused") false (by decide)
  exact ⟨by decide, h.1, h.2 rfl⟩

/-- C9: every turn ever stored in a reachable transcript is either a user
turn with exactly `role = "user"` and `content` (no `sources` key), or an
assistant turn with `role = "assistant"`, `content`, and a `sources` key
that is always present and always a list (possibly empty), even when the
dispatcher's fallback carried no `sources` field. -/
theorem C9_stored_turn_shape (port : String) (ops : List Op) (m : Message)
    (hm : m ∈ runOps port ops) : WellFormedMsg m :=
  wellFormed_foldl port ops [] (by simp) m hm

/-- Witness for `C9_stored_turn_shape`: the fallback assistant turn of a
submission whose query raised. -/
theorem C9_stored_turn_shape_witness :
    (⟨"assistant", apologyConnect, some []⟩ : Message) ∈
      runOps "5050" [.cycle (.response 200) (some "hi") (.exception "refused") false] ∧
    WellFormedMsg (⟨"assistant", apologyConnect, some []⟩ : Message) :=
  ⟨by decide,
    C9_stored_turn_shape "5050"
      [.cycle (.response 200) (some "hi") (.exception "refused") false]
      ⟨"assistant", apologyConnect, some []⟩ (by decide)⟩

/-- C10: when the chat input yields no text or the empty string, that
render cycle issues no query request, and — as long as Clear is not
clicked — leaves the transcript exactly unchanged. -/
theorem C10_empty_input_frame (port : String) (msgs : List Message)
    (health : HealthResult) (backend : HttpResult) (c : Bool) :
    (renderCycle port msgs health none backend c).requests = [] ∧
    (renderCycle port msgs health (some "") backend c).requests = [] ∧
    (renderCycle port msgs health none backend false).transcript = msgs ∧
    (renderCycle port msgs health (some "") backend false).transcript = msgs := by
  refine ⟨rfl, ?_, rfl, ?_⟩ <;> simp [renderCycle]

end AACECompass
